import Mathlib

/-!
# Verification of the gremlin-rs GraphSON v3 codec and traversal builder

Shallow embedding of `src/gremlin-client/src/io/serializer_v3.rs`,
`src/gremlin-client/src/structure/map.rs` and
`src/gremlin-client/src/process/graph_traversal.rs`.

JSON trees (`serde_json::Value`) are modelled by `Gremlin.Json`; numbers carry
either an exact integer or a non-integral numeric payload (floating-point
rounding is not modelled — no claim below depends on it).  Fallible Rust code
returning `GremlinResult<T>` is modelled by `Gremlin.Res T`, which has a third
outcome `panic` for Rust panics (out-of-bounds `Vec` indexing, `expect` on
`None`), since a panic propagates past every `match` on `GremlinError`.
-/

namespace Gremlin

/-- A `serde_json` number: `int i` for integral numbers in range (where
`as_i64` answers), `float q` for non-integral payloads.  The exact binary64
value is modelled by a rational; no claim depends on rounding. -/
inductive JNumber where
  | int (i : Int)
  | float (q : ℚ)
deriving DecidableEq

/-- A `serde_json::Value` tree.  Object fields are kept as an association
list; `serde_json`'s map iterates in sorted key order and all objects built
in this development list their keys in that order already. -/
inductive Json where
  | null
  | bool (b : Bool)
  | num (n : JNumber)
  | str (s : String)
  | arr (elems : List Json)
  | obj (fields : List (String × Json))

/-- `serde_json::Number::as_i64`: integral and within `i64` range. -/
def JNumber.as_i64 : JNumber → Option Int
  | .int i => if -(2 ^ 63) ≤ i ∧ i < 2 ^ 63 then some i else none
  | .float _ => none

/-- `serde_json::Number::as_f64` (total on numbers); the rational stands for
the closest binary64, rounding not modelled. -/
def JNumber.as_f64 : JNumber → ℚ
  | .int i => (i : ℚ)
  | .float q => q

/-- `Value::get(key)`: `Some` iff the node is an object carrying the key. -/
def Json.getField : Json → String → Option Json
  | .obj fields, k => fields.lookup k
  | _, _ => none

/-- `Value::index` for a string key (`val["k"]`): the field's value when the
node is an object that has it, `Null` otherwise (serde_json returns a static
`Null` reference rather than panicking for missing keys / non-objects). -/
def Json.idx (v : Json) (k : String) : Json :=
  (v.getField k).getD .null

/-- The error value (`GremlinError`): `json` is `GremlinError::Json` (the
decode-error variant the Id fallback catches), `uuid` the variant wrapping a
UUID parse failure, `cast` a downcast (`take`) failure.  Modelled from the
spec: the error enum itself is not under `src/`; §7 of the spec lists the
kinds and §4.3 says only the "untyped JSON" class is caught by the Id
fallback. -/
inductive GremlinError where
  | json (msg : String)
  | uuid (msg : String)
  | cast (msg : String)
deriving DecidableEq

/-- Outcome of fallible Rust code: `ok`/`err` are `Result`, `panic` models a
Rust panic (which no `GremlinResult` pattern-match can intercept). -/
inductive Res (α : Type) where
  | ok (a : α)
  | err (e : GremlinError)
  | panic (msg : String)
deriving DecidableEq

def Res.bind {α β : Type} : Res α → (α → Res β) → Res β
  | .ok a, f => f a
  | .err e, _ => .err e
  | .panic m, _ => .panic m

instance : Monad Res where
  pure := Res.ok
  bind := Res.bind

/-- A graph-element id (`GID`): one of string, 32-bit int, 64-bit int. -/
inductive GID where
  | str (s : String)
  | int32 (i : Int)
  | int64 (i : Int)
deriving DecidableEq

/-- Server-side profiling metric (`structure::Metric`), fields in the order
of `Metric::new(id, name, duration, count, traversers, perc_duration)`. -/
structure Metric where
  id : String
  name : String
  duration : ℚ
  count : Int
  traversers : Int
  percDur : ℚ
deriving DecidableEq

/-- `structure::TraversalMetrics`: total duration plus the ordered metrics. -/
structure TraversalMetrics where
  duration : ℚ
  metrics : List Metric
deriving DecidableEq

/-- `structure::IntermediateRepr` of a traversal explanation. -/
structure IntermediateRepr where
  traversal : List String
  strategy : String
  category : String
deriving DecidableEq

/-- `structure::TraversalExplanation`. -/
structure TraversalExplanation where
  original : List String
  final : List String
  intermediate : List IntermediateRepr
deriving DecidableEq

mutual

/-- The decoded value universe (`structure::GValue`).  `uuid` stores the
parsed UUID as its canonical lowercase hyphenated text; `date` stores whole
seconds since the epoch (`Utc.timestamp(v, 0)`); `float`/`double` keep the
width distinction of the Rust `f32`/`f64` payloads. -/
inductive GValue where
  | null
  | bool (b : Bool)
  | int32 (i : Int)
  | int64 (i : Int)
  | float (q : ℚ)
  | double (q : ℚ)
  | string (s : String)
  | uuid (s : String)
  | date (seconds : Int)
  | list (elems : List GValue)
  | map (entries : List (GKey × GValue))
  | vertex (v : Vertex)
  | edge (e : Edge)
  | vertexProperty (vp : VertexProperty)
  | property (p : GProperty)
  | path (p : GPath)
  | metric (m : Metric)
  | traversalMetrics (tm : TraversalMetrics)
  | traversalExplanation (te : TraversalExplanation)

/-- Keys of the in-memory `Map` (`structure::map::GKey`). -/
inductive GKey where
  | string (s : String)
  | token (s : String)
  | vertex (v : Vertex)
  | edge (e : Edge)

/-- `structure::Vertex`: id, label, and property-name → ordered
vertex-property list. -/
inductive Vertex where
  | mk (id : GID) (label : String)
      (properties : List (String × List VertexProperty))

/-- `structure::Edge`, fields in the order of
`Edge::new(id, label, in_v_id, in_v_label, out_v_id, out_v_label, props)`. -/
inductive Edge where
  | mk (id : GID) (label : String) (inVId : GID) (inVLabel : String)
      (outVId : GID) (outVLabel : String)
      (properties : List (String × GProperty))

/-- `structure::VertexProperty`: id, label, inner value. -/
inductive VertexProperty where
  | mk (id : GID) (label : String) (value : GValue)

/-- `structure::Property`: key (called `label` in the constructor) and
inner value. -/
inductive GProperty where
  | mk (label : String) (value : GValue)

/-- `structure::Path`: `labels` is whatever `read` produced, `objects` the
downcast `List`. -/
inductive GPath where
  | mk (labels : GValue) (objects : List GValue)

end

def Vertex.id : Vertex → GID
  | .mk i _ _ => i

def Vertex.label : Vertex → String
  | .mk _ l _ => l

def Vertex.properties : Vertex → List (String × List VertexProperty)
  | .mk _ _ p => p

def Edge.id : Edge → GID
  | .mk i _ _ _ _ _ _ => i

def Edge.label : Edge → String
  | .mk _ l _ _ _ _ _ => l

def Edge.inVId : Edge → GID
  | .mk _ _ i _ _ _ _ => i

def Edge.inVLabel : Edge → String
  | .mk _ _ _ l _ _ _ => l

def Edge.outVId : Edge → GID
  | .mk _ _ _ _ i _ _ => i

def Edge.outVLabel : Edge → String
  | .mk _ _ _ _ _ l _ => l

def Edge.properties : Edge → List (String × GProperty)
  | .mk _ _ _ _ _ _ p => p

def GPath.labels : GPath → GValue
  | .mk l _ => l

def GPath.objects : GPath → List GValue
  | .mk _ o => o

/-- One character of serde_json's string escaping: quote, backslash and the
control characters are escaped, everything else passes through. -/
def escapeChar (c : Char) : String :=
  if c = '"' then "\\\""
  else if c = '\\' then "\\\\"
  else if c = Char.ofNat 8 then "\\b"
  else if c = Char.ofNat 9 then "\\t"
  else if c = Char.ofNat 10 then "\\n"
  else if c = Char.ofNat 12 then "\\f"
  else if c = Char.ofNat 13 then "\\r"
  else if c.toNat < 32 then
    "\\u00" ++ String.singleton (Nat.digitChar (c.toNat / 16))
      ++ String.singleton (Nat.digitChar (c.toNat % 16))
  else String.singleton c

/-- serde_json's rendering of a string literal. -/
def renderString (s : String) : String :=
  "\"" ++ String.join (s.toList.map escapeChar) ++ "\""

mutual

/-- Compact serde_json `to_string` of a tree (what `val.to_string()` and
`format!("{}", val)` produce).  Integer numbers render exactly; a `float`
payload renders its rational (serde's shortest-round-trip binary64 printing
is not modelled — no claim stringifies a float-bearing node). -/
def Json.render : Json → String
  | .null => "null"
  | .bool true => "true"
  | .bool false => "false"
  | .num (.int i) => toString i
  | .num (.float q) => toString q
  | .str s => renderString s
  | .arr elems => "[" ++ Json.renderElems elems ++ "]"
  | .obj fields => "\x7b" ++ Json.renderFields fields ++ "\x7d"

def Json.renderElems : List Json → String
  | [] => ""
  | [x] => Json.render x
  | x :: y :: rest => Json.render x ++ "," ++ Json.renderElems (y :: rest)

def Json.renderFields : List (String × Json) → String
  | [] => ""
  | [(k, v)] => renderString k ++ ":" ++ Json.render v
  | (k, v) :: f :: rest =>
    renderString k ++ ":" ++ Json.render v ++ "," ++ Json.renderFields (f :: rest)

end

/-- `Value::as_i64` on a whole node: numbers defer to the number, everything
else is `none`. -/
def Json.as_i64 : Json → Option Int
  | .num n => n.as_i64
  | _ => none

/-- Modelled from the spec: the `get_value!(v, Value::String)` macro
(io/macros.rs is not under `src/`) — destructure the string variant, any
other shape being a shape-mismatch `GremlinError::Json`. -/
def getString : Json → Res String
  | .str s => .ok s
  | v => .err (.json ("Expected string, found " ++ v.render))

/-- Modelled from the spec: `get_value!(v, Value::Array)`. -/
def getArray : Json → Res (List Json)
  | .arr elems => .ok elems
  | v => .err (.json ("Expected array, found " ++ v.render))

/-- Modelled from the spec: the `expect_i64!` macro — `as_i64` or a decode
error (a bare float where an integer is expected is a width mismatch, §4.3). -/
def expect_i64 (v : Json) : Res Int :=
  match v.as_i64 with
  | some i => .ok i
  | none => .err (.json ("Expected i64, found " ++ v.render))

/-- Modelled from the spec: the `expect_i32!` macro — `as_i64` plus the
32-bit range check (an out-of-range integer is a decode error, §4.3). -/
def expect_i32 (v : Json) : Res Int :=
  match v.as_i64 with
  | some i =>
    if -(2 ^ 31) ≤ i ∧ i < 2 ^ 31 then .ok i
    else .err (.json ("Expected i32, found " ++ v.render))
  | none => .err (.json ("Expected i32, found " ++ v.render))

/-- Modelled from the spec: the `expect_float!` macro — any JSON number read
through `as_f64`, any other shape a decode error. -/
def expect_float (v : Json) : Res ℚ :=
  match v with
  | .num n => .ok n.as_f64
  | _ => .err (.json ("Expected float, found " ++ v.render))

/-- Modelled from the spec: the `expect_double!` macro, same shape as
`expect_float!`. -/
def expect_double (v : Json) : Res ℚ :=
  match v with
  | .num n => .ok n.as_f64
  | _ => .err (.json ("Expected double, found " ++ v.render))

/-- Modelled from the spec (§7 "Downcast failure"): `take::<Map>` of
`conversion::FromGValue`, which is not under `src/`. -/
def takeMap : GValue → Res (List (GKey × GValue))
  | .map m => .ok m
  | _ => .err (.cast "Cannot cast to Map")

/-- Modelled from the spec: `take::<List>`. -/
def takeList : GValue → Res (List GValue)
  | .list xs => .ok xs
  | _ => .err (.cast "Cannot cast to List")

/-- Modelled from the spec: `take::<f64>` — only the `Double` variant casts. -/
def takeDouble : GValue → Res ℚ
  | .double q => .ok q
  | _ => .err (.cast "Cannot cast to f64")

/-- Modelled from the spec: `take::<i64>` — only the `Int64` variant casts. -/
def takeI64 : GValue → Res Int
  | .int64 i => .ok i
  | _ => .err (.cast "Cannot cast to i64")

/-- Modelled from the spec: `take::<String>`. -/
def takeString : GValue → Res String
  | .string s => .ok s
  | _ => .err (.cast "Cannot cast to String")

/-- Modelled from the spec: `take::<Metric>`. -/
def takeMetric : GValue → Res Metric
  | .metric m => .ok m
  | _ => .err (.cast "Cannot cast to Metric")

/-- Modelled from the spec: `take::<VertexProperty>`. -/
def takeVertexProperty : GValue → Res VertexProperty
  | .vertexProperty vp => .ok vp
  | _ => .err (.cast "Cannot cast to VertexProperty")

/-- `e.take::<Metric>()` followed by `filter_map(Result::ok)`: the element's
metric when the downcast succeeds. -/
def takeMetricOpt : GValue → Option Metric
  | .metric m => some m
  | _ => none

/-- `s.take::<String>()` under `filter_map(Result::ok)`. -/
def takeStringOpt : GValue → Option String
  | .string s => some s
  | _ => none

/-- `s.take::<Map>()` under `filter_map(Result::ok)`. -/
def takeMapOpt : GValue → Option (List (GKey × GValue))
  | .map m => some m
  | _ => none

/-- `filter_map(Result::ok)` over a fallible step (the step never panics in
the places this is used). -/
def resToOption {α : Type} : Res α → Option α
  | .ok a => some a
  | _ => none

/-- `HashMap::insert` on a string-keyed association list: overwrite the value
when the key is present, append otherwise (later pairs win). -/
def insertStr (m : List (String × GValue)) (k : String) (v : GValue) :
    List (String × GValue) :=
  if m.any (fun p => p.1 == k) then
    m.map (fun p => if p.1 == k then (k, v) else p)
  else m ++ [(k, v)]

/-- `Map::remove` with a `&str` key (which converts to `GKey::String`):
the removed value and the remaining entries, when a matching string key is
present. -/
def removeKey : List (GKey × GValue) → String → Option (GValue × List (GKey × GValue))
  | [], _ => none
  | (GKey.string s, v) :: rest, field =>
    if s = field then some (v, rest)
    else (removeKey rest field).map (fun r => (r.1, (GKey.string s, v) :: r.2))
  | (k, v) :: rest, field =>
    (removeKey rest field).map (fun r => (r.1, (k, v) :: r.2))

/-- `get_and_remove(map, field, owner)` of serializer_v3.rs: the mutation of
the map is made explicit by returning the remaining entries alongside the
extracted value. -/
def get_and_remove (m : List (GKey × GValue)) (field owner : String) :
    Res (GValue × List (GKey × GValue)) :=
  match removeKey m field with
  | some r => .ok r
  | none => .err (.json ("Field " ++ field ++ " not found in " ++ owner))

def G_METRICS : String := "g:Metrics"

def G_TRAVERSAL_EXPLANATION : String := "g:TraversalExplanation"

def G_TRAVERSAL_METRICS : String := "g:TraversalMetrics"

/-- `deserialize_id` (serializer_v3.rs:20-36): run the reader; `String` /
`Int32` / `Int64` become the matching `GID` variant, another success is a
`"cannot be an id"` decode error, a `GremlinError::Json` failure falls back
to the stringified raw node, any other failure propagates. -/
def deserialize_id (reader : Json → Res GValue) (val : Json) : Res GID :=
  match reader val with
  | .ok result =>
    match result with
    | .string d => .ok (.str d)
    | .int32 d => .ok (.int32 d)
    | .int64 d => .ok (.int64 d)
    | _ => .err (.json (val.render ++ " cannot be an id"))
  | .err e =>
    match e with
    | .json _ => .ok (.str val.render)
    | _ => .err e
  | .panic m => .panic m

/-- `deserialize_date` (serializer_v3.rs:39-45): whole seconds since epoch
(`Utc.timestamp(val, 0)`). -/
def deserialize_date (_reader : Json → Res GValue) (val : Json) : Res GValue :=
  Res.bind (expect_i64 val) fun v => .ok (.date v)

/-- `deserialize_g64` (serializer_v3.rs:48-54). -/
def deserialize_g64 (_reader : Json → Res GValue) (val : Json) : Res GValue :=
  Res.bind (expect_i64 val) fun v => .ok (.int64 v)

/-- Modelled from the spec: `uuid::Uuid::parse_str` (an external crate, not
in the repository) per §4.3 — a string in canonical 8-4-4-4-12 hex form
parses, anything else fails.  The parsed UUID is represented by its canonical
lowercase text. -/
def isHexChar (c : Char) : Bool :=
  c.isDigit || ('a' ≤ c && c ≤ 'f') || ('A' ≤ c && c ≤ 'F')

/-- Canonical 8-4-4-4-12 form: 36 characters, hyphens exactly at positions
8, 13, 18 and 23, hex digits elsewhere. -/
def uuidCanonical (s : String) : Bool :=
  let cs := s.toList
  cs.length == 36 &&
    (List.range 36).all fun i =>
      if i = 8 ∨ i = 13 ∨ i = 18 ∨ i = 23 then cs.getD i ' ' == '-'
      else isHexChar (cs.getD i ' ')

/-- ASCII lowercasing of one character (uppercase hex digits normalise). -/
def lowerChar (c : Char) : Char :=
  if 'A' ≤ c ∧ c ≤ 'Z' then Char.ofNat (c.toNat + 32) else c

/-- ASCII lowercasing of a string. -/
def lowerAscii (s : String) : String :=
  String.mk (s.toList.map lowerChar)

/-- Modelled from the spec: the UUID string parser (see `isHexChar`); the
result is the canonical lowercase text of the UUID. -/
def uuidParse (s : String) : Option String :=
  if uuidCanonical s then some (lowerAscii s) else none

/-- `deserialize_uuid` (serializer_v3.rs:57-64): a JSON string parsed as a
UUID; the parse failure converts into the non-Json `uuid` error variant. -/
def deserialize_uuid (_reader : Json → Res GValue) (val : Json) : Res GValue :=
  Res.bind (getString val) fun s =>
    match uuidParse s with
    | some u => .ok (.uuid u)
    | none => .err (.uuid ("Invalid uuid " ++ s))

/-- `deserialize_g32` (serializer_v3.rs:67-73). -/
def deserialize_g32 (_reader : Json → Res GValue) (val : Json) : Res GValue :=
  Res.bind (expect_i32 val) fun v => .ok (.int32 v)

/-- `deserialize_f32` (serializer_v3.rs:76-82). -/
def deserialize_f32 (_reader : Json → Res GValue) (val : Json) : Res GValue :=
  Res.bind (expect_float val) fun v => .ok (.float v)

/-- `deserialize_f64` (serializer_v3.rs:84-90). -/
def deserialize_f64 (_reader : Json → Res GValue) (val : Json) : Res GValue :=
  Res.bind (expect_double val) fun v => .ok (.double v)

/-- The element loop of `deserialize_list`: each element through the reader,
first error propagates. -/
def readElems (reader : Json → Res GValue) : List Json → Res (List GValue)
  | [] => .ok []
  | x :: rest =>
    Res.bind (reader x) fun g =>
      Res.bind (readElems reader rest) fun gs => .ok (g :: gs)

/-- `deserialize_list` (serializer_v3.rs:93-103), also registered for
`g:Set`. -/
def deserialize_list (reader : Json → Res GValue) (val : Json) : Res GValue :=
  Res.bind (getArray val) fun elems =>
    Res.bind (readElems reader elems) fun gs => .ok (.list gs)

/-- The `while x < val.len()` loop of `deserialize_map`
(serializer_v3.rs:112-119): position `x` must be a JSON string, then the
value at `x + 1` goes through the reader.  When `x` is the last index the
source evaluates `&val[x + 1]`, a `Vec` index out of bounds — a Rust panic,
not a `GremlinError` (`len` is the array's length, threaded through for the
panic message). -/
def mapLoop (reader : Json → Res GValue) (len : Nat) :
    List (String × GValue) → List Json → Nat → Res (List (String × GValue))
  | acc, [], _ => .ok acc
  | acc, item :: rest, x =>
    Res.bind (getString item) fun key =>
      match rest with
      | [] =>
        .panic ("index out of bounds: the len is " ++ toString len
          ++ " but the index is " ++ toString (x + 1))
      | v :: rest' =>
        Res.bind (reader v) fun value =>
          mapLoop reader len (insertStr acc key value) rest' (x + 2)

/-- `deserialize_map` (serializer_v3.rs:106-122).  The `if !val.is_empty()`
guard of the source is subsumed by the loop's empty case.  The final
`map.into()` wraps the string keys into `GKey::String`. -/
def deserialize_map (reader : Json → Res GValue) (val : Json) : Res GValue :=
  Res.bind (getArray val) fun items =>
    Res.bind (mapLoop reader items.length [] items 0) fun m =>
      .ok (.map (m.map fun p => (GKey.string p.1, p.2)))

/-- The label extraction pattern
`val.get(field).map(|f| get_value!(f, Value::String)).unwrap_or(Ok(default))`
shared by the vertex, edge, vertex-property and property decoders. -/
def labelOrDefault (val : Json) (field dflt : String) : Res String :=
  match val.getField field with
  | some f => getString f
  | none => .ok dflt

/-- The `for elem in arr` loop of `deserialize_vertex_properties`
(serializer_v3.rs:335-341): each element through the reader, downcast to
`VertexProperty`, first failure propagates. -/
def readVertexPropertyList (reader : Json → Res GValue) :
    List Json → Res (List VertexProperty)
  | [] => .ok []
  | elem :: rest =>
    Res.bind (reader elem) fun g =>
      Res.bind (takeVertexProperty g) fun vp =>
        Res.bind (readVertexPropertyList reader rest) fun vps => .ok (vp :: vps)

/-- The `for (k, v) in o` loop of `deserialize_vertex_properties`
(serializer_v3.rs:333-349): every value must be a JSON array, else the
object-shape error (which quotes the whole `properties` node).  JSON object
keys are unique, so collecting in order models the `HashMap` inserts. -/
def vertexPropsLoop (reader : Json → Res GValue) (properties : Json) :
    List (String × Json) → Res (List (String × List VertexProperty))
  | [] => .ok []
  | (k, v) :: rest =>
    match v with
    | .arr elems =>
      Res.bind (readVertexPropertyList reader elems) fun vps =>
        Res.bind (vertexPropsLoop reader properties rest) fun tail =>
          .ok ((k, vps) :: tail)
    | _ =>
      .err (.json ("Expected object or null for properties. Found "
        ++ properties.render))

/-- `deserialize_vertex_properties` (serializer_v3.rs:323-359). -/
def deserialize_vertex_properties (reader : Json → Res GValue)
    (properties : Json) : Res (List (String × List VertexProperty)) :=
  match properties with
  | .obj o => vertexPropsLoop reader properties o
  | .null => .ok []
  | _ =>
    .err (.json ("Expected object or null for properties. Found "
      ++ properties.render))

/-- `deserialize_vertex` (serializer_v3.rs:125-142). -/
def deserialize_vertex (reader : Json → Res GValue) (val : Json) : Res GValue :=
  Res.bind (labelOrDefault val "label" "vertex") fun label =>
    Res.bind (deserialize_id reader (val.idx "id")) fun id =>
      Res.bind (deserialize_vertex_properties reader (val.idx "properties"))
        fun props => .ok (.vertex (.mk id label props))

/-- `deserialize_edge` (serializer_v3.rs:145-172): note the property map is
`HashMap::new()` — always empty. -/
def deserialize_edge (reader : Json → Res GValue) (val : Json) : Res GValue :=
  Res.bind (labelOrDefault val "label" "edge") fun label =>
    Res.bind (deserialize_id reader (val.idx "id")) fun id =>
      Res.bind (deserialize_id reader (val.idx "inV")) fun inVId =>
        Res.bind (getString (val.idx "inVLabel")) fun inVLabel =>
          Res.bind (deserialize_id reader (val.idx "outV")) fun outVId =>
            Res.bind (getString (val.idx "outVLabel")) fun outVLabel =>
              .ok (.edge (.mk id label inVId inVLabel outVId outVLabel []))

/-- `deserialize_path` (serializer_v3.rs:175-184): `labels` is whatever the
reader yields, `objects` must downcast to a `List`; no further check. -/
def deserialize_path (reader : Json → Res GValue) (val : Json) : Res GValue :=
  Res.bind (reader (val.idx "labels")) fun labels =>
    Res.bind (Res.bind (reader (val.idx "objects")) takeList) fun objects =>
      .ok (.path (.mk labels objects))

/-- `deserialize_metrics` (serializer_v3.rs:187-203): the payload reads as a
`Map`; `dur` must downcast to `f64`, `metrics` to a `List`, whose elements
keep only the successful `take::<Metric>` results, in order. -/
def deserialize_metrics (reader : Json → Res GValue) (val : Json) : Res GValue :=
  Res.bind (Res.bind (reader val) takeMap) fun m0 =>
    Res.bind (get_and_remove m0 "dur" G_TRAVERSAL_METRICS) fun d1 =>
      Res.bind (takeDouble d1.1) fun duration =>
        Res.bind (get_and_remove d1.2 "metrics" G_TRAVERSAL_METRICS) fun d2 =>
          Res.bind (takeList d2.1) fun lst =>
            .ok (.traversalMetrics ⟨duration, lst.filterMap takeMetricOpt⟩)

/-- `deserialize_metric` (serializer_v3.rs:206-224). -/
def deserialize_metric (reader : Json → Res GValue) (val : Json) : Res GValue :=
  Res.bind (Res.bind (reader val) takeMap) fun m0 =>
    Res.bind (get_and_remove m0 "dur" G_METRICS) fun d1 =>
      Res.bind (takeDouble d1.1) fun duration =>
        Res.bind (get_and_remove d1.2 "id" G_METRICS) fun d2 =>
          Res.bind (takeString d2.1) fun id =>
            Res.bind (get_and_remove d2.2 "name" G_METRICS) fun d3 =>
              Res.bind (takeString d3.1) fun name =>
                Res.bind (get_and_remove d3.2 "counts" G_METRICS) fun d4 =>
                  Res.bind (takeMap d4.1) fun counts =>
                    Res.bind (get_and_remove counts "traverserCount" G_METRICS) fun c1 =>
                      Res.bind (takeI64 c1.1) fun traversers =>
                        Res.bind (get_and_remove c1.2 "elementCount" G_METRICS) fun c2 =>
                          Res.bind (takeI64 c2.1) fun count =>
                            Res.bind (get_and_remove d4.2 "annotations" G_METRICS) fun d5 =>
                              Res.bind (takeMap d5.1) fun annotations =>
                                Res.bind (get_and_remove annotations "percentDur" G_METRICS) fun p1 =>
                                  Res.bind (takeDouble p1.1) fun percDur =>
                                    .ok (.metric ⟨id, name, duration, count, traversers, percDur⟩)

/-- `map_intermediate` (serializer_v3.rs:258-271). -/
def map_intermediate (m : List (GKey × GValue)) : Res IntermediateRepr :=
  Res.bind (get_and_remove m "traversal" G_TRAVERSAL_EXPLANATION) fun d1 =>
    Res.bind (takeList d1.1) fun travL =>
      Res.bind (get_and_remove d1.2 "strategy" G_TRAVERSAL_EXPLANATION) fun d2 =>
        Res.bind (takeString d2.1) fun strategy =>
          Res.bind (get_and_remove d2.2 "category" G_TRAVERSAL_EXPLANATION) fun d3 =>
            Res.bind (takeString d3.1) fun category =>
              .ok ⟨travL.filterMap takeStringOpt, strategy, category⟩

/-- `deserialize_explain` (serializer_v3.rs:226-256). -/
def deserialize_explain (reader : Json → Res GValue) (val : Json) : Res GValue :=
  Res.bind (Res.bind (reader val) takeMap) fun m0 =>
    Res.bind (get_and_remove m0 "original" G_TRAVERSAL_EXPLANATION) fun d1 =>
      Res.bind (takeList d1.1) fun origL =>
        Res.bind (get_and_remove d1.2 "final" G_TRAVERSAL_EXPLANATION) fun d2 =>
          Res.bind (takeList d2.1) fun finL =>
            Res.bind (get_and_remove d2.2 "intermediate" G_TRAVERSAL_EXPLANATION) fun d3 =>
              Res.bind (takeList d3.1) fun interL =>
                .ok (.traversalExplanation
                  ⟨origL.filterMap takeStringOpt, finL.filterMap takeStringOpt,
                    (interL.filterMap takeMapOpt).filterMap
                      fun m => resToOption (map_intermediate m)⟩)

/-- `deserialize_vertex_property` (serializer_v3.rs:274-286). -/
def deserialize_vertex_property (reader : Json → Res GValue) (val : Json) :
    Res GValue :=
  Res.bind (labelOrDefault val "label" "vertex_property") fun label =>
    Res.bind (deserialize_id reader (val.idx "id")) fun id =>
      Res.bind (reader (val.idx "value")) fun v =>
        .ok (.vertexProperty (.mk id label v))

/-- `deserialize_property` (serializer_v3.rs:289-300). -/
def deserialize_property (reader : Json → Res GValue) (val : Json) :
    Res GValue :=
  Res.bind (labelOrDefault val "key" "property") fun label =>
    Res.bind (reader (val.idx "value")) fun v =>
      .ok (.property (.mk label v))

/-- Modelled from the spec (§4.1): the tag registry the `g_serielizer!`
macro builds (io/macros.rs is not under `src/`); the tag table itself is
serializer_v3.rs:303-321. -/
def lookupDecoder : String → Option ((Json → Res GValue) → Json → Res GValue)
  | "g:Int32" => some deserialize_g32
  | "g:Int64" => some deserialize_g64
  | "g:Float" => some deserialize_f32
  | "g:Double" => some deserialize_f64
  | "g:Date" => some deserialize_date
  | "g:UUID" => some deserialize_uuid
  | "g:List" => some deserialize_list
  | "g:Set" => some deserialize_list
  | "g:Map" => some deserialize_map
  | "g:Vertex" => some deserialize_vertex
  | "g:VertexProperty" => some deserialize_vertex_property
  | "g:Property" => some deserialize_property
  | "g:Edge" => some deserialize_edge
  | "g:Path" => some deserialize_path
  | "g:TraversalMetrics" => some deserialize_metrics
  | "g:Metrics" => some deserialize_metric
  | "g:TraversalExplanation" => some deserialize_explain
  | _ => none

/-- Exactly the two envelope keys `@type` (a string) and `@value`, listed in
serde_json's sorted key order. -/
def envelope : List (String × Json) → Option (String × Json)
  | [("@type", .str t), ("@value", v)] => some (t, v)
  | _ => none

/-- Modelled from the spec (§4.2): the recursive reader `deserializer_v3`
generated by the `g_serielizer!` macro (io/macros.rs is not under `src/`):
null, booleans and strings pass through; a bare number is a decode error; a
two-key envelope dispatches through the registry, handing the reader itself
to the decoder; any other object or a bare array is a decode error.  `fuel`
bounds the recursion depth (the Rust recursion is bounded only by the stack);
exhaustion reports as a panic, and every theorem below either quantifies over
an arbitrary reader or supplies ample fuel for its concrete input. -/
def deserializer_v3 : Nat → Json → Res GValue
  | 0, _ => .panic "stack overflow"
  | Nat.succ fuel, val =>
    match val with
    | .null => .ok .null
    | .bool b => .ok (.bool b)
    | .str s => .ok (.string s)
    | .num _ => .err (.json ("Unexpected value " ++ val.render))
    | .obj fields =>
      match envelope fields with
      | some (tag, payload) =>
        match lookupDecoder tag with
        | some d => d (deserializer_v3 fuel) payload
        | none => .err (.json ("Unexpected type " ++ tag))
      | none => .err (.json ("Unexpected value " ++ val.render))
    | .arr _ => .err (.json ("Unexpected value " ++ val.render))

mutual

/-- Structural equality of decoded values (the derived `PartialEq` of
`GValue`); association lists compare pointwise — the decoders produce
unique-keyed lists, on which this coincides with `HashMap` equality.  A Rust
`f32`/`f64` NaN is unequal to itself, which the rational model cannot
express; no claim involves NaN. -/
def GValue.beq : GValue → GValue → Bool
  | .null, .null => true
  | .bool a, .bool b => a == b
  | .int32 a, .int32 b => a == b
  | .int64 a, .int64 b => a == b
  | .float a, .float b => a == b
  | .double a, .double b => a == b
  | .string a, .string b => a == b
  | .uuid a, .uuid b => a == b
  | .date a, .date b => a == b
  | .list a, .list b => GValue.beqList a b
  | .map a, .map b => GValue.beqEntries a b
  | .vertex a, .vertex b => Vertex.beq a b
  | .edge a, .edge b => Edge.beq a b
  | .vertexProperty a, .vertexProperty b => VertexProperty.beq a b
  | .property a, .property b => GProperty.beq a b
  | .path a, .path b => GPath.beq a b
  | .metric a, .metric b => a == b
  | .traversalMetrics a, .traversalMetrics b => a == b
  | .traversalExplanation a, .traversalExplanation b => a == b
  | _, _ => false

def GValue.beqList : List GValue → List GValue → Bool
  | [], [] => true
  | a :: as, b :: bs => GValue.beq a b && GValue.beqList as bs
  | _, _ => false

def GValue.beqEntries : List (GKey × GValue) → List (GKey × GValue) → Bool
  | [], [] => true
  | (ka, va) :: as, (kb, vb) :: bs =>
    GKey.beq ka kb && GValue.beq va vb && GValue.beqEntries as bs
  | _, _ => false

/-- The derived `PartialEq`/`Eq` of `GKey` (map.rs:72-78). -/
def GKey.beq : GKey → GKey → Bool
  | .string a, .string b => a == b
  | .token a, .token b => a == b
  | .vertex a, .vertex b => Vertex.beq a b
  | .edge a, .edge b => Edge.beq a b
  | _, _ => false

def Vertex.beq : Vertex → Vertex → Bool
  | .mk ia la pa, .mk ib lb pb => ia == ib && la == lb && Vertex.beqProps pa pb

def Vertex.beqProps :
    List (String × List VertexProperty) → List (String × List VertexProperty) → Bool
  | [], [] => true
  | (ka, va) :: as, (kb, vb) :: bs =>
    ka == kb && VertexProperty.beqList va vb && Vertex.beqProps as bs
  | _, _ => false

def VertexProperty.beqList : List VertexProperty → List VertexProperty → Bool
  | [], [] => true
  | a :: as, b :: bs => VertexProperty.beq a b && VertexProperty.beqList as bs
  | _, _ => false

def VertexProperty.beq : VertexProperty → VertexProperty → Bool
  | .mk ia la va, .mk ib lb vb => ia == ib && la == lb && GValue.beq va vb

def Edge.beq : Edge → Edge → Bool
  | .mk ia la iva ivla ova ovla pa, .mk ib lb ivb ivlb ovb ovlb pb =>
    ia == ib && la == lb && iva == ivb && ivla == ivlb && ova == ovb
      && ovla == ovlb && Edge.beqProps pa pb

def Edge.beqProps : List (String × GProperty) → List (String × GProperty) → Bool
  | [], [] => true
  | (ka, va) :: as, (kb, vb) :: bs =>
    ka == kb && GProperty.beq va vb && Edge.beqProps as bs
  | _, _ => false

def GProperty.beq : GProperty → GProperty → Bool
  | .mk la va, .mk lb vb => la == lb && GValue.beq va vb

def GPath.beq : GPath → GPath → Bool
  | .mk la oa, .mk lb ob => GValue.beq la lb && GValue.beqList oa ob

end

/-- `structure::Map` (map.rs:6): a `HashMap<GKey, GValue>` kept as an
association list; lookups compare keys with the structural `GKey.beq`. -/
structure Map where
  entries : List (GKey × GValue)

/-- `Map::get` (map.rs:40-45): `None` for an absent key. -/
def Map.get (m : Map) (k : GKey) : Option GValue :=
  m.entries.findSome? fun p => if GKey.beq p.1 k then some p.2 else none

/-- The `Index` impl for `Map` (map.rs:56-62):
`self.0.get(&key.into()).expect("no entry found for key")` — `.error`
models the `expect` panic (there is no error value at this interface). -/
def Map.index (m : Map) (k : GKey) : Except String GValue :=
  match m.get k with
  | some v => Except.ok v
  | none => Except.error "no entry found for key"

/-- Modelled from the spec (§4.4): `Bytecode`
(process/traversal/bytecode.rs is not under `src/`) — an append-only
ordered list of `(operator-name, arguments)` steps, `add_step` appending
one step and the step list being the read view. -/
structure Bytecode where
  steps : List (String × List GValue)

/-- Modelled from the spec (§4.4): `Bytecode::add_step`. -/
def Bytecode.add_step (b : Bytecode) (name : String) (args : List GValue) :
    Bytecode :=
  ⟨b.steps ++ [(name, args)]⟩

/-- `GraphTraversal` (graph_traversal.rs:9-14), keeping its runtime content:
the phantom start/end types and the strategies play no part in bytecode
construction. -/
structure GraphTraversal where
  bytecode : Bytecode

/-- `GraphTraversal::has_label` (graph_traversal.rs:29-38): the labels
(`labels.into().0`, a string list) are lifted by `GValue::from` to string
values and appended as one `hasLabel` step. -/
def GraphTraversal.has_label (t : GraphTraversal) (labels : List String) :
    GraphTraversal :=
  ⟨t.bytecode.add_step "hasLabel" (labels.map GValue.string)⟩

/-- `GraphTraversal::out` (graph_traversal.rs:65-75): same append, new
end-type (phantom, erased here). -/
def GraphTraversal.out (t : GraphTraversal) (labels : List String) :
    GraphTraversal :=
  ⟨t.bytecode.add_step "out" (labels.map GValue.string)⟩

/-- A typed envelope node `{"@type": t, "@value": v}`. -/
def mkEnvelope (t : String) (v : Json) : Json :=
  .obj [("@type", .str t), ("@value", v)]

/-- A value one of the three id-bearing variants? -/
def isIdCandidate : GValue → Bool
  | .string _ => true
  | .int32 _ => true
  | .int64 _ => true
  | _ => false

/-- The `GremlinError::Json` variant (the one the Id fallback intercepts). -/
def isJsonErr : GremlinError → Bool
  | .json _ => true
  | _ => false

/-- Element count of a decoded `List` value (`none` for any other variant):
the length of a `Path`'s labels, when they are a list at all. -/
def listLen : GValue → Option Nat
  | .list xs => some xs.length
  | _ => none

/-- The spec's description of the vertex-properties sub-decoder on a JSON
object (stated from the claim's words, to compare with
`deserialize_vertex_properties`): field names carry over pairwise, every
field's value is a JSON array, and its elements decode through the reader
and the `VertexProperty` downcast to the paired property list. -/
def VertexPropsSpec (reader : Json → Res GValue)
    (fields : List (String × Json)) (p : List (String × List VertexProperty)) :
    Prop :=
  List.Forall₂
    (fun (f : String × Json) (q : String × List VertexProperty) =>
      f.1 = q.1 ∧ ∃ elems, f.2 = Json.arr elems ∧
        List.Forall₂
          (fun e vp => Res.bind (reader e) takeVertexProperty = .ok vp)
          elems q.2)
    fields p

/-- The sample metric used to instantiate the metrics-decoder theorem. -/
def sampleMetric : Metric :=
  ⟨"7.0.0()", "TinkerGraphStep(vertex,[~label.eq(person)])", 100, 4, 4, 25⟩

/-- A decoded `g:TraversalMetrics` map carrying a well-formed `dur`, and a
`metrics` list with one proper metric and one junk element. -/
def sampleMetricsMap : List (GKey × GValue) :=
  [(.string "dur", .double (1/250)),
   (.string "metrics", .list [.metric sampleMetric, .string "junk"])]

/-- A reader constant at the sample metrics map, exercising
`deserialize_metrics` in isolation (the decoders take the reader as a
function argument, exactly as the Rust generic does). -/
def sampleMetricsReader : Json → Res GValue :=
  fun _ => .ok (.map sampleMetricsMap)

/-- The `g:Edge` node of the source's `test_edge` test
(serializer_v3.rs:547), whose payload carries a nested `properties` object
with a `g:Property` entry. -/
def edgeTestJson : Json :=
  mkEnvelope "g:Edge" (.obj
    [("id", mkEnvelope "g:Int32" (.num (.int 13))),
     ("label", .str "develops"),
     ("inVLabel", .str "software"),
     ("outVLabel", .str "person"),
     ("inV", mkEnvelope "g:Int32" (.num (.int 10))),
     ("outV", mkEnvelope "g:Int32" (.num (.int 1))),
     ("properties", .obj
       [("since", mkEnvelope "g:Property" (.obj
         [("key", .str "since"),
          ("value", mkEnvelope "g:Int32" (.num (.int 2009)))]))])])

/-- The unequal-length `g:Path` node refuting the equal-length claim: no
labels, one object. -/
def pathCounterJson : Json :=
  mkEnvelope "g:Path" (.obj
    [("labels", mkEnvelope "g:List" (.arr [])),
     ("objects", mkEnvelope "g:List" (.arr [.str "a"]))])

/-- A node neither a JSON object nor JSON null (the shapes the
vertex-properties sub-decoder rejects outright). -/
def notObjOrNull : Json → Bool
  | .obj _ => false
  | .null => false
  | _ => true

@[simp] theorem Res.bind_ok {α β : Type} (a : α) (f : α → Res β) :
    Res.bind (.ok a) f = f a := rfl

@[simp] theorem Res.bind_err {α β : Type} (e : GremlinError) (f : α → Res β) :
    Res.bind (.err e) f = .err e := rfl

@[simp] theorem Res.bind_panic {α β : Type} (m : String) (f : α → Res β) :
    Res.bind (.panic m) f = .panic m := rfl

theorem Res.bind_eq_ok {α β : Type} {x : Res α} {f : α → Res β} {b : β} :
    Res.bind x f = .ok b ↔ ∃ a, x = .ok a ∧ f a = .ok b := by
  cases x <;> simp [Res.bind]

/-- The pair loop of the map decoder can never succeed on an odd number of
remaining items: it either rejects a non-string key position or reaches the
out-of-bounds read of the value position. -/
theorem mapLoop_odd_no_ok (reader : Json → Res GValue) (len : Nat) :
    ∀ (items : List Json) (acc : List (String × GValue)) (x : Nat),
      items.length % 2 = 1 → ∀ m, mapLoop reader len acc items x ≠ .ok m
  | [], _, _, h, _ => by simp at h
  | [a], acc, x, _, m => by
    intro hm
    unfold mapLoop at hm
    cases hga : getString a <;> rw [hga] at hm <;> simp [Res.bind] at hm
  | a :: b :: rest, acc, x, h, m => by
    intro hm
    unfold mapLoop at hm
    cases hga : getString a <;> rw [hga] at hm <;> simp [Res.bind] at hm
    cases hrb : reader b <;> rw [hrb] at hm <;> simp [Res.bind] at hm
    exact mapLoop_odd_no_ok reader len rest _ (x + 2)
      (by simp at h; omega) m hm

/-- The element loop of the vertex-properties sub-decoder succeeds exactly
when every element reads and downcasts to a vertex property, pointwise. -/
theorem readVertexPropertyList_ok_iff (reader : Json → Res GValue)
    (elems : List Json) (vps : List VertexProperty) :
    readVertexPropertyList reader elems = .ok vps ↔
      List.Forall₂ (fun e vp => Res.bind (reader e) takeVertexProperty = .ok vp)
        elems vps := by
  induction elems generalizing vps with
  | nil => cases vps <;> simp [readVertexPropertyList]
  | cons e rest ih =>
    cases vps with
    | nil =>
      simp only [readVertexPropertyList, Res.bind_eq_ok]
      constructor
      · rintro ⟨g, -, vp, -, tail, -, h⟩; cases h
      · intro h; cases h
    | cons vp vrest =>
      constructor
      · intro h
        simp only [readVertexPropertyList, Res.bind_eq_ok, Res.ok.injEq,
          List.cons.injEq] at h
        obtain ⟨g, hg, vp', hvp, tail, htail, h1, h2⟩ := h
        subst h1; subst h2
        exact List.Forall₂.cons (Res.bind_eq_ok.mpr ⟨g, hg, hvp⟩) ((ih _).mp htail)
      · intro h
        cases h with
        | cons hb htail =>
          obtain ⟨g, hg, hvp⟩ := Res.bind_eq_ok.mp hb
          have hloop := (ih vrest).mpr htail
          simp only [readVertexPropertyList, hg, hvp, hloop, Res.bind_ok]

/-- The field loop of the vertex-properties sub-decoder succeeds exactly
when the spec's pointwise description (`VertexPropsSpec`) holds. -/
theorem vertexPropsLoop_ok_iff (reader : Json → Res GValue) (props : Json)
    (fields : List (String × Json)) (p : List (String × List VertexProperty)) :
    vertexPropsLoop reader props fields = .ok p ↔
      VertexPropsSpec reader fields p := by
  induction fields generalizing p with
  | nil => cases p <;> simp [vertexPropsLoop, VertexPropsSpec]
  | cons f rest ih =>
    obtain ⟨k, v⟩ := f
    cases v with
    | arr elems =>
      cases p with
      | nil =>
        simp only [vertexPropsLoop, Res.bind_eq_ok, VertexPropsSpec]
        constructor
        · rintro ⟨vps, -, tail, -, h⟩; cases h
        · intro h; cases h
      | cons q qrest =>
        constructor
        · intro h
          simp only [vertexPropsLoop, Res.bind_eq_ok, Res.ok.injEq,
            List.cons.injEq] at h
          obtain ⟨vps, hvps, tail, htail, h1, h2⟩ := h
          subst h2
          subst h1
          exact List.Forall₂.cons
            ⟨rfl, elems, rfl, (readVertexPropertyList_ok_iff reader elems vps).mp hvps⟩
            ((ih tail).mp htail)
        · intro h
          cases h with
          | cons hq htail =>
            obtain ⟨qk, qv⟩ := q
            obtain ⟨hk, elemsE, helems, hfa⟩ := hq
            injection helems with he
            subst he
            cases hk
            have h1 := (readVertexPropertyList_ok_iff reader _ qv).mpr hfa
            have h2 := (ih qrest).mpr htail
            simp only [vertexPropsLoop, h1, h2, Res.bind_ok]
    | null =>
      cases p with
      | nil => simp [vertexPropsLoop, VertexPropsSpec]
      | cons q qrest => simp [vertexPropsLoop, VertexPropsSpec, List.forall₂_cons]
    | bool b =>
      cases p <;> simp [vertexPropsLoop, VertexPropsSpec, List.forall₂_cons]
    | num n =>
      cases p <;> simp [vertexPropsLoop, VertexPropsSpec, List.forall₂_cons]
    | str s =>
      cases p <;> simp [vertexPropsLoop, VertexPropsSpec, List.forall₂_cons]
    | obj o =>
      cases p <;> simp [vertexPropsLoop, VertexPropsSpec, List.forall₂_cons]

/-- C1: the claim says an odd-length `g:Map` payload is an Invalid-payload
decode error.  The code disagrees: on the odd-length payload `["a"]` the
decoder reads the key and then evaluates `&val[x + 1]` past the end of the
`Vec`, a Rust panic, not a decode error — and no odd-length payload can ever
decode successfully. -/
theorem C1_map_odd_length_panics :
    deserializer_v3 10 (mkEnvelope "g:Map" (.arr [.str "a"]))
      = .panic "index out of bounds: the len is 1 but the index is 1"
    ∧ ∀ (reader : Json → Res GValue) (items : List Json),
        items.length % 2 = 1 →
          ∀ g, deserialize_map reader (.arr items) ≠ .ok g := by
  refine ⟨rfl, ?_⟩
  intro reader items h g hm
  unfold deserialize_map at hm
  simp [getArray, Res.bind_eq_ok] at hm
  obtain ⟨a, ha, -⟩ := hm
  exact mapLoop_odd_no_ok reader items.length items [] 0 h a ha

/-- C2 counterexample: the `g:Path` decoder accepts a payload with zero
labels and one object, so the decoded labels and objects are NOT equal in
length. -/
theorem C2_unequal_path_counterexample :
    deserializer_v3 10 pathCounterJson
      = .ok (.path (.mk (.list []) [.string "a"]))
    ∧ listLen (GPath.mk (.list []) [.string "a"]).labels
        ≠ some (GPath.mk (.list []) [.string "a"]).objects.length := by
  refine ⟨rfl, ?_⟩
  simp [listLen, GPath.labels, GPath.objects]

/-- C2 (amended): the `g:Path` decoder accepts exactly the payloads whose
`labels` field reads successfully and whose `objects` field reads to a
`List`, storing both as-is; no equal-length check is made. -/
theorem C2_path_decode_characterization (reader : Json → Res GValue)
    (val : Json) (r : GValue) :
    deserialize_path reader val = .ok r ↔
      ∃ labels objects, reader (val.idx "labels") = .ok labels
        ∧ Res.bind (reader (val.idx "objects")) takeList = .ok objects
        ∧ r = .path (.mk labels objects) := by
  unfold deserialize_path
  simp only [Res.bind_eq_ok]
  constructor
  · rintro ⟨labels, hl, objects, ho, h⟩
    injection h with h
    exact ⟨labels, objects, hl, ho, h.symm⟩
  · rintro ⟨labels, objects, hl, ho, rfl⟩
    exact ⟨labels, hl, objects, ho, rfl⟩

/-- C3: the Id deserializer, by cases on the reader's outcome — the three
id-bearing variants become the matching `GID`, any other success is the
`"cannot be an id"` decode error, a `GremlinError::Json` failure falls back
to the stringified raw node, and any other failure (or panic) propagates
unchanged. -/
theorem C3_id_deserializer_outcomes (reader : Json → Res GValue) (val : Json) :
    (∀ s, reader val = .ok (.string s) → deserialize_id reader val = .ok (.str s))
    ∧ (∀ i, reader val = .ok (.int32 i) → deserialize_id reader val = .ok (.int32 i))
    ∧ (∀ i, reader val = .ok (.int64 i) → deserialize_id reader val = .ok (.int64 i))
    ∧ (∀ g, reader val = .ok g → isIdCandidate g = false →
        deserialize_id reader val = .err (.json (val.render ++ " cannot be an id")))
    ∧ (∀ msg, reader val = .err (.json msg) →
        deserialize_id reader val = .ok (.str val.render))
    ∧ (∀ e, reader val = .err e → isJsonErr e = false →
        deserialize_id reader val = .err e)
    ∧ (∀ msg, reader val = .panic msg → deserialize_id reader val = .panic msg) := by
  refine ⟨?_, ?_, ?_, ?_, ?_, ?_, ?_⟩
  · intro s h; simp [deserialize_id, h]
  · intro i h; simp [deserialize_id, h]
  · intro i h; simp [deserialize_id, h]
  · intro g h hg; cases g <;> simp_all [deserialize_id, isIdCandidate]
  · intro msg h; simp [deserialize_id, h]
  · intro e h he; cases e <;> simp_all [deserialize_id, isJsonErr]
  · intro msg h; simp [deserialize_id, h]

/-- C4: integer and float widths never collapse — the `g:Int32` and
`g:Int64` envelopes of the same numeric payload decode to unequal values,
and likewise `g:Float` versus `g:Double`. -/
theorem C4_width_preservation :
    deserializer_v3 10 (mkEnvelope "g:Int32" (.num (.int 1))) = .ok (.int32 1)
    ∧ deserializer_v3 10 (mkEnvelope "g:Int64" (.num (.int 1))) = .ok (.int64 1)
    ∧ deserializer_v3 10 (mkEnvelope "g:Int32" (.num (.int 1)))
        ≠ deserializer_v3 10 (mkEnvelope "g:Int64" (.num (.int 1)))
    ∧ deserializer_v3 10 (mkEnvelope "g:Float" (.num (.float (5/2))))
        = .ok (.float (5/2))
    ∧ deserializer_v3 10 (mkEnvelope "g:Double" (.num (.float (5/2))))
        = .ok (.double (5/2))
    ∧ deserializer_v3 10 (mkEnvelope "g:Float" (.num (.float (5/2))))
        ≠ deserializer_v3 10 (mkEnvelope "g:Double" (.num (.float (5/2)))) := by
  refine ⟨rfl, rfl, ?_, rfl, rfl, ?_⟩
  · show Res.ok (GValue.int32 1) ≠ Res.ok (GValue.int64 1)
    simp
  · show Res.ok (GValue.float (5/2)) ≠ Res.ok (GValue.double (5/2))
    simp

/-- C5: every payload the `g:Edge` decoder accepts yields an `Edge` with an
EMPTY property map, the six id/label fields decoded exactly as the source
prescribes; concretely, the source's `test_edge` payload — which carries a
nested `properties` object with a `g:Property` entry — decodes to an edge
with no properties. -/
theorem C5_edge_properties_empty (reader : Json → Res GValue) (val : Json) :
    (∀ r, deserialize_edge reader val = .ok r ↔
      ∃ label id inVId inVLabel outVId outVLabel,
        labelOrDefault val "label" "edge" = .ok label
        ∧ deserialize_id reader (val.idx "id") = .ok id
        ∧ deserialize_id reader (val.idx "inV") = .ok inVId
        ∧ getString (val.idx "inVLabel") = .ok inVLabel
        ∧ deserialize_id reader (val.idx "outV") = .ok outVId
        ∧ getString (val.idx "outVLabel") = .ok outVLabel
        ∧ r = .edge (.mk id label inVId inVLabel outVId outVLabel []))
    ∧ deserializer_v3 10 edgeTestJson
        = .ok (.edge (.mk (.int32 13) "develops" (.int32 10) "software"
            (.int32 1) "person" [])) := by
  constructor
  · intro r
    unfold deserialize_edge
    simp only [Res.bind_eq_ok]
    constructor
    · rintro ⟨label, hl, id, hid, inv, hinv, invl, hinvl, outv, houtv, outvl, houtvl, h⟩
      injection h with h
      exact ⟨label, id, inv, invl, outv, outvl, hl, hid, hinv, hinvl, houtv, houtvl, h.symm⟩
    · rintro ⟨label, id, inv, invl, outv, outvl, hl, hid, hinv, hinvl, houtv, houtvl, rfl⟩
      exact ⟨label, hl, id, hid, inv, hinv, invl, hinvl, outv, houtv, outvl, houtvl, rfl⟩
  · rfl

/-- C6: when the `g:TraversalMetrics` payload reads to a map holding a
`Double` under `dur` and a `List` under `metrics`, the decoder returns the
duration together with exactly the list elements that downcast to `Metric`,
in order — the rest are skipped silently, not failed. -/
theorem C6_metrics_skip_non_metrics (reader : Json → Res GValue) (val : Json)
    (m0 : List (GKey × GValue)) (d : ℚ) (m1 : List (GKey × GValue))
    (xs : List GValue) (m2 : List (GKey × GValue))
    (hread : reader val = .ok (.map m0))
    (hdur : removeKey m0 "dur" = some (.double d, m1))
    (hmet : removeKey m1 "metrics" = some (.list xs, m2)) :
    deserialize_metrics reader val
      = .ok (.traversalMetrics ⟨d, xs.filterMap takeMetricOpt⟩) := by
  unfold deserialize_metrics
  simp [hread, takeMap, Res.bind, get_and_remove, hdur, hmet, takeDouble, takeList]

/-- C6 witness: a concrete metrics map whose list holds one metric and one
junk string decodes to just the metric, the junk skipped. -/
theorem C6_metrics_witness :
    deserialize_metrics sampleMetricsReader .null
      = .ok (.traversalMetrics ⟨1/250, [sampleMetric]⟩) :=
  C6_metrics_skip_non_metrics sampleMetricsReader .null sampleMetricsMap
    (1/250) _ _ _ rfl rfl rfl

/-- C7: the `g:UUID` decoder accepts exactly the JSON strings in canonical
8-4-4-4-12 hex form — a canonical string yields the UUID value, a
non-canonical string is a decode error, and any non-string payload is a
decode error. -/
theorem C7_uuid_canonical_exactly (reader : Json → Res GValue) (val : Json) :
    (∀ s, val = .str s → uuidCanonical s = true →
        deserialize_uuid reader val = .ok (.uuid (lowerAscii s)))
    ∧ (∀ s, val = .str s → uuidCanonical s = false →
        deserialize_uuid reader val = .err (.uuid ("Invalid uuid " ++ s)))
    ∧ ((∀ s, val ≠ .str s) →
        ∃ msg, deserialize_uuid reader val = .err (.json msg)) := by
  refine ⟨?_, ?_, ?_⟩
  · rintro s rfl hc; simp [deserialize_uuid, getString, uuidParse, hc, Res.bind]
  · rintro s rfl hc; simp [deserialize_uuid, getString, uuidParse, hc, Res.bind]
  · intro h
    cases val with
    | str s => exact absurd rfl (h s)
    | null => exact ⟨_, rfl⟩
    | bool b => exact ⟨_, rfl⟩
    | num n => exact ⟨_, rfl⟩
    | arr a => exact ⟨_, rfl⟩
    | obj o => exact ⟨_, rfl⟩

/-- C8: the vertex-properties sub-decoder yields the empty map on null and
on an absent `properties` field, succeeds on an object exactly when every
field value is a JSON array whose elements all read and downcast to
`VertexProperty` (pointwise as `VertexPropsSpec`), and rejects every other
shape with a decode error. -/
theorem C8_vertex_properties_shape (reader : Json → Res GValue) (props : Json) :
    (props = .null → deserialize_vertex_properties reader props = .ok [])
    ∧ (∀ fields p, props = .obj fields →
        (deserialize_vertex_properties reader props = .ok p ↔
          VertexPropsSpec reader fields p))
    ∧ (notObjOrNull props = true →
        ∃ msg, deserialize_vertex_properties reader props = .err (.json msg))
    ∧ (∀ fields, fields.lookup "properties" = none →
        deserialize_vertex_properties reader ((Json.obj fields).idx "properties")
          = .ok []) := by
  refine ⟨?_, ?_, ?_, ?_⟩
  · rintro rfl; rfl
  · rintro fields p rfl
    exact vertexPropsLoop_ok_iff reader (.obj fields) fields p
  · intro h
    cases props with
    | null => simp [notObjOrNull] at h
    | obj o => simp [notObjOrNull] at h
    | bool b => exact ⟨_, rfl⟩
    | num n => exact ⟨_, rfl⟩
    | str s => exact ⟨_, rfl⟩
    | arr a => exact ⟨_, rfl⟩
  · intro fields hlk
    simp [Json.idx, Json.getField, hlk, deserialize_vertex_properties]

/-- C9: bytecode construction is append-only — `add_step` appends its
`(name, args)` pair, so after `has_label` the read view's last element is
`("hasLabel", labels)` and everything before it is the prior step list,
unchanged. -/
theorem C9_bytecode_append_only (t : GraphTraversal) (labels : List String)
    (b : Bytecode) (name : String) (args : List GValue) :
    (b.add_step name args).steps = b.steps ++ [(name, args)]
    ∧ (b.add_step name args).steps.getLast? = some (name, args)
    ∧ (t.has_label labels).bytecode.steps.getLast?
        = some ("hasLabel", labels.map GValue.string)
    ∧ (t.has_label labels).bytecode.steps.dropLast = t.bytecode.steps := by
  refine ⟨rfl, ?_, ?_, ?_⟩
  · simp [Bytecode.add_step]
  · simp [GraphTraversal.has_label, Bytecode.add_step]
  · simp [GraphTraversal.has_label, Bytecode.add_step]

/-- C10: indexing the in-memory `Map` is partial — for a key not present,
`Map::get` returns `None` while the `Index` impl panics with
`"no entry found for key"` rather than returning an error value. -/
theorem C10_map_index_panics_on_absent (m : Map) (k : GKey)
    (habs : ∀ p ∈ m.entries, GKey.beq p.1 k = false) :
    Map.get m k = none
    ∧ Map.index m k = .error "no entry found for key" := by
  have hget : Map.get m k = none := by
    unfold Map.get
    rw [List.findSome?_eq_none_iff]
    intro p hp
    simp [habs p hp]
  exact ⟨hget, by simp [Map.index, hget]⟩

/-- C10 witness: the singleton map `{"a" ↦ Int32 1}` indexed at the absent
key `"b"`. -/
theorem C10_map_index_witness :
    Map.get (Map.mk [(GKey.string "a", GValue.int32 1)]) (GKey.string "b") = none
    ∧ Map.index (Map.mk [(GKey.string "a", GValue.int32 1)]) (GKey.string "b")
        = .error "no entry found for key" :=
  C10_map_index_panics_on_absent
    (Map.mk [(GKey.string "a", GValue.int32 1)]) (GKey.string "b")
    (by intro p hp; rcases List.mem_singleton.mp hp with rfl; simp [GKey.beq])

end Gremlin
